import Mathlib

/-!
Verification development for the ts-fsrs spaced-repetition scheduling engine.

The repository ships only the type surface (dist/index.d.ts); every function body is
absent from the sources. The data model below mirrors the declared types exactly, and
every operational definition is modelled from the natural-language specification
(spec.md), as flagged in each doc comment. Instants are modelled as integer minutes
since an epoch and all numerics as exact rationals.
-/

namespace TsFsrs

/-- Card scheduling state, mirroring `enum State` (dist/index.d.ts lines 2-7). -/
inductive State where
  | New
  | Learning
  | Review
  | Relearning
deriving DecidableEq

/-- Review rating, mirroring `enum Rating` (dist/index.d.ts lines 9-15). -/
inductive Rating where
  | Manual
  | Again
  | Hard
  | Good
  | Easy
deriving DecidableEq

/-- A scheduling grade: any rating except `Manual` (type `Grade` in dist/index.d.ts). -/
inductive Grade where
  | Again
  | Hard
  | Good
  | Easy
deriving DecidableEq

/-- Numeric value of a grade, matching the `Rating` enum values `Again = 1 .. Easy = 4`. -/
def Grade.q : Grade → ℚ
  | .Again => 1
  | .Hard => 2
  | .Good => 3
  | .Easy => 4

/-- Ordinal of a grade as a natural number (1..4), used for weight-vector indexing. -/
def Grade.nat : Grade → ℕ
  | .Again => 1
  | .Hard => 2
  | .Good => 3
  | .Easy => 4

/-- The `Rating` corresponding to a grade. -/
def Grade.rating : Grade → Rating
  | .Again => .Again
  | .Hard => .Hard
  | .Good => .Good
  | .Easy => .Easy

/-- A card's scheduling state, mirroring `interface Card` (dist/index.d.ts lines 36-46).
Instants (`due`, `last_review`) are integer minutes since an epoch. -/
structure Card where
  due : ℤ
  stability : ℚ
  difficulty : ℚ
  elapsed_days : ℤ
  scheduled_days : ℚ
  reps : ℕ
  lapses : ℕ
  state : State
  last_review : Option ℤ
deriving DecidableEq

/-- An immutable record of one scheduling event, mirroring `interface ReviewLog`
(dist/index.d.ts lines 18-28). -/
structure ReviewLog where
  rating : Rating
  state : State
  due : ℤ
  stability : ℚ
  difficulty : ℚ
  elapsed_days : ℤ
  last_elapsed_days : ℤ
  scheduled_days : ℚ
  review : ℤ
deriving DecidableEq

/-- One possible outcome of reviewing a card now under one grade
(type `RecordLogItem` in dist/index.d.ts). -/
structure RecordLogItem where
  card : Card
  log : ReviewLog
deriving DecidableEq

/-- The complete branching forecast for a single review moment: one `RecordLogItem`
per grade (type `RecordLog` in dist/index.d.ts). -/
structure RecordLog where
  again : RecordLogItem
  hard : RecordLogItem
  good : RecordLogItem
  easy : RecordLogItem
deriving DecidableEq

/-- Look up the outcome for a grade in a `RecordLog`. -/
def RecordLog.get (r : RecordLog) (g : Grade) : RecordLogItem :=
  match g with
  | .Again => r.again
  | .Hard => r.hard
  | .Good => r.good
  | .Easy => r.easy

/-- Scheduler configuration, mirroring `interface FSRSParameters`
(dist/index.d.ts lines 59-64); `maximum_interval` is a day count. -/
structure FSRSParameters where
  request_retention : ℚ
  maximum_interval : ℤ
  w : List ℚ
  enable_fuzz : Bool
deriving DecidableEq

/-- Modelled from the spec: §4.1's stability-update formulas use the exponential
`e^x` and real powers `b^e`, which have no exact rational counterpart. They are
modelled as an explicit parameter record; every theorem below holds for every
choice of these two functions, so nothing depends on their values. -/
structure MathOps where
  exp : ℚ → ℚ
  pow : ℚ → ℚ → ℚ

/-- Default retention target, mirroring `default_request_retention = 0.95`
(dist/index.d.ts line 84). -/
def default_request_retention : ℚ := 19 / 20

/-- Default interval cap, mirroring `default_maximum_interval = 36500`
(dist/index.d.ts line 85). -/
def default_maximum_interval : ℤ := 36500

/-- Default fuzz toggle, mirroring `default_enable_fuzz = true` (dist/index.d.ts line 87). -/
def default_enable_fuzz : Bool := true

/-- Modelled from the spec: `default_w` is declared without a value in dist/index.d.ts;
a representative 17-entry weight vector is fixed here (§6 calls the weight table an
externally calibrated constant set). No claim below depends on the entry values. -/
def default_w : List ℚ :=
  [2/5, 3/5, 12/5, 29/5, 493/100, 47/50, 43/50, 1/100, 149/100, 7/50, 47/50,
   109/50, 1/20, 17/50, 63/50, 29/100, 261/100]

/-- Modelled from the spec: §7 requires the weight vector to have a fixed length,
checked at construction; the concrete length matches the 17-entry default table. -/
def expected_w_length : ℕ := 17

/-- Modelled from the spec: decay exponent of the forgetting curve. Its value is
declared without definition in dist/index.d.ts (line 158); §4.1 requires the
constants be tuned so that retrievability is exactly 0.9 at `t = s`, which pins
`DECAY = -1` together with `FACTOR = 1` below. -/
def DECAY : ℤ := -1

/-- Modelled from the spec: factor of the forgetting curve, declared without
definition in dist/index.d.ts (line 159); tuned with `DECAY` so that
`R(s, s) = 0.9` (§4.1). -/
def FACTOR : ℚ := 1

/-- Modelled from the spec: §6 treats date arithmetic as an external collaborator.
`date_scheduler` offsets an instant by `t` days when `isDay` is set, else by `t`
minutes (dist/index.d.ts line 145). -/
def date_scheduler (now : ℤ) (t : ℤ) (isDay : Bool) : ℤ :=
  if isDay then now + t * 1440 else now + t

/-- Modelled from the spec: the external date-diff collaborator; whole days elapsed
between two instants, rounding down (floor division). -/
def dateDiffDays (now pre : ℤ) : ℤ :=
  Int.fdiv (now - pre) 1440

/-- Modelled from the spec: §4.2, the precomputed `intervalModifier`
`9 * (1 / request_retention - 1)` (dist/index.d.ts line 203). -/
def intervalModifier (p : FSRSParameters) : ℚ :=
  9 * (1 / p.request_retention - 1)

/-- Modelled from the spec: §4.1 `init_stability(g) = max(w[g-1], 0.1)`. -/
def init_stability (p : FSRSParameters) (g : Grade) : ℚ :=
  max (p.w.getD (Grade.nat g - 1) 0) (1/10)

/-- Modelled from the spec: §4.1 `init_difficulty(g) = clamp(w4 - (g - Good) * w5, 1, 10)`
with `Good = 3`. -/
def init_difficulty (p : FSRSParameters) (g : Grade) : ℚ :=
  min (max (p.w.getD 4 0 - (Grade.q g - 3) * p.w.getD 5 0) 1) 10

/-- Modelled from the spec: §4.1 `constrain_difficulty` clamps a difficulty into [1,10]. -/
def constrain_difficulty (difficulty : ℚ) : ℚ :=
  min (max difficulty 1) 10

/-- Modelled from the spec: §4.1 `mean_reversion(init, current) = w7*init + (1-w7)*current`. -/
def mean_reversion (p : FSRSParameters) (init current : ℚ) : ℚ :=
  p.w.getD 7 0 * init + (1 - p.w.getD 7 0) * current

/-- Modelled from the spec: §4.1 `next_difficulty(d, g)` applies the delta
`d - w6 * (g - Good)`, blends it toward `init_difficulty(Good)` via `mean_reversion`,
then clamps to [1,10]. -/
def next_difficulty (p : FSRSParameters) (d : ℚ) (g : Grade) : ℚ :=
  constrain_difficulty
    (mean_reversion p (init_difficulty p Grade.Good) (d - p.w.getD 6 0 * (Grade.q g - 3)))

/-- Modelled from the spec: §4.1 `next_recall_stability(d, s, r, g)` =
`s * (e^{w8} * (11-d) * s^{-w9} * (e^{w10*(1-r)} - 1) * hard_penalty * easy_bonus + 1)`,
where the penalty `w15` applies only for Hard and the bonus `w16` only for Easy. -/
def next_recall_stability (ops : MathOps) (p : FSRSParameters) (d s r : ℚ) (g : Grade) : ℚ :=
  s * (ops.exp (p.w.getD 8 0) * (11 - d) * ops.pow s (-(p.w.getD 9 0)) *
        (ops.exp (p.w.getD 10 0 * (1 - r)) - 1) *
        (if g = Grade.Hard then p.w.getD 15 0 else 1) *
        (if g = Grade.Easy then p.w.getD 16 0 else 1) + 1)

/-- Modelled from the spec: §4.1 `next_forget_stability(d, s, r)` =
`w11 * d^{-w12} * ((s+1)^{w13} - 1) * e^{w14*(1-r)}`. -/
def next_forget_stability (ops : MathOps) (p : FSRSParameters) (d s r : ℚ) : ℚ :=
  p.w.getD 11 0 * ops.pow d (-(p.w.getD 12 0)) *
    (ops.pow (s + 1) (p.w.getD 13 0) - 1) * ops.exp (p.w.getD 14 0 * (1 - r))

/-- Modelled from the spec: §4.1 forgetting curve
`R(t, s) = (1 + FACTOR * t / (9 * s)) ^ DECAY` (dist/index.d.ts line 253). -/
def forgetting_curve (elapsed_days stability : ℚ) : ℚ :=
  (1 + FACTOR * elapsed_days / (9 * stability)) ^ DECAY

/-- Fuzz band, mirroring the return shape of `get_fuzz_range` (dist/index.d.ts lines 153-156). -/
structure FuzzRange where
  min_ivl : ℤ
  max_ivl : ℤ
deriving DecidableEq

/-- Modelled from the spec: §4.2 `get_fuzz_range` builds a band around the interval
whose fractional width grows with the interval's magnitude, then re-clamps it so that
`min_ivl ≥ elapsed_days + 1` and `max_ivl ≤ maximum_interval`. The spec does not fix
the width coefficients; a representative width `1 + 0.05 * max(interval - 2.5, 0)` is
used (no claim depends on the width formula). -/
def get_fuzz_range (interval : ℚ) (elapsed_days : ℤ) (maximum_interval : ℤ) : FuzzRange :=
  let delta : ℚ := 1 + (1/20) * max (interval - 5/2) 0
  { min_ivl := max (round (interval - delta)) (elapsed_days + 1)
    max_ivl := min (round (interval + delta)) maximum_interval }

/-- Modelled from the spec: §4.2 `apply_fuzz` is a no-op (up to rounding to whole days)
when fuzz is disabled or the interval is below 2.5, and otherwise draws an integer
uniformly from the fuzz band. The pseudo-random draw is modelled as an explicit
parameter `rand`, a rational in [0,1) (§4.2 requires seedable determinism, so the
draw is data, not hidden state). -/
def apply_fuzz (p : FSRSParameters) (rand : ℚ) (ivl : ℚ) (elapsed_days : ℤ)
    (enable_fuzz : Bool) : ℤ :=
  if enable_fuzz = false ∨ ivl < 5/2 then round ivl
  else
    let r := get_fuzz_range ivl elapsed_days p.maximum_interval
    r.min_ivl + ⌊rand * ((r.max_ivl - r.min_ivl + 1 : ℤ) : ℚ)⌋

/-- Modelled from the spec: §4.2 `next_interval` targets
`s * 9 * (1 / request_retention - 1)` days, applies fuzz, rounds to whole days,
floors at 1 and caps at `maximum_interval` (dist/index.d.ts lines 200-208). -/
def next_interval (p : FSRSParameters) (rand : ℚ) (s : ℚ) (elapsed_days : ℤ)
    (enable_fuzz : Bool) : ℤ :=
  min (max (apply_fuzz p rand (s * intervalModifier p) elapsed_days enable_fuzz) 1)
    p.maximum_interval

/-- Modelled from the spec: §4.3 state-transition table, applied per grade to the
current state to determine each candidate's next state
(`SchedulingCard.update_state`, dist/index.d.ts line 79). -/
def next_state : State → Grade → State
  | State.New, Grade.Again => State.Learning
  | State.New, Grade.Hard => State.Learning
  | State.New, Grade.Good => State.Learning
  | State.New, Grade.Easy => State.Review
  | State.Learning, Grade.Again => State.Learning
  | State.Learning, Grade.Hard => State.Learning
  | State.Learning, Grade.Good => State.Review
  | State.Learning, Grade.Easy => State.Review
  | State.Relearning, Grade.Again => State.Relearning
  | State.Relearning, Grade.Hard => State.Relearning
  | State.Relearning, Grade.Good => State.Review
  | State.Relearning, Grade.Easy => State.Review
  | State.Review, Grade.Again => State.Relearning
  | State.Review, Grade.Hard => State.Review
  | State.Review, Grade.Good => State.Review
  | State.Review, Grade.Easy => State.Review

/-- Modelled from the spec: §4.3 — candidates that land in Learning/Relearning get a
short fixed step measured in minutes. The spec fixes no concrete step values; the
representative per-grade steps below are used (no claim depends on them; Easy never
lands in Learning/Relearning by the transition table). -/
def learning_step_minutes : Grade → ℤ
  | Grade.Again => 1
  | Grade.Hard => 5
  | Grade.Good => 10
  | Grade.Easy => 15

/-- Modelled from the spec: §4.3 — the fresh `elapsed_days` for a review happening
`now` is the whole-day difference to the card's last review, and 0 when the card has
no prior review. -/
def cardElapsed (card : Card) (now : ℤ) : ℤ :=
  match card.last_review with
  | some lr => dateDiffDays now lr
  | none => 0

/-- Modelled from the spec: §4.3 — compute the candidate (card, log) outcome of one
grade. Stability/difficulty are initialized when the card is New, else updated via the
recall/forget branch using the retrievability at review time; the next state comes
from the transition table; Review outcomes get an interval via §4.2 with
`due = now + interval` in days, Learning/Relearning outcomes a minute step with
`scheduled_days` the step converted to fractional days; Again in Review increments
`lapses`, any non-Again outcome increments `reps`. The log captures the pre-event
state, the grade, fresh and prior elapsed days, the chosen interval, and
`review = now`; its `due` slot carries the card's pre-event `last_review` when present
(else its pre-event `due`), which is what §4.4's rollback contract consumes to restore
`last_review` (and to restore `due` for New cards). -/
def scheduleGrade (ops : MathOps) (p : FSRSParameters) (rand : ℚ) (card : Card)
    (now : ℤ) (elapsed : ℤ) (g : Grade) : RecordLogItem :=
  let newDS : ℚ × ℚ :=
    if card.state = State.New then
      (init_difficulty p g, init_stability p g)
    else
      let r := forgetting_curve (elapsed : ℚ) card.stability
      (next_difficulty p card.difficulty g,
        if g = Grade.Again then
          next_forget_stability ops p card.difficulty card.stability r
        else
          next_recall_stability ops p card.difficulty card.stability r g)
  let st := next_state card.state g
  let dueSched : ℤ × ℚ :=
    if st = State.Review then
      let ivl := next_interval p rand newDS.2 elapsed p.enable_fuzz
      (date_scheduler now ivl true, (ivl : ℚ))
    else
      (date_scheduler now (learning_step_minutes g) false,
        (learning_step_minutes g : ℚ) / 1440)
  { card :=
      { due := dueSched.1
        stability := newDS.2
        difficulty := newDS.1
        elapsed_days := elapsed
        scheduled_days := dueSched.2
        reps := if g = Grade.Again then card.reps else card.reps + 1
        lapses := if g = Grade.Again ∧ card.state = State.Review then
            card.lapses + 1 else card.lapses
        state := st
        last_review := some now }
    log :=
      { rating := Grade.rating g
        state := card.state
        due := card.last_review.getD card.due
        stability := newDS.2
        difficulty := newDS.1
        elapsed_days := elapsed
        last_elapsed_days := card.elapsed_days
        scheduled_days := dueSched.2
        review := now } }

/-- Modelled from the spec: §4.4 `repeat(card, now)` — the four-grade branching
forecast; four independent pure projections from one input card
(dist/index.d.ts line 323). -/
def FSRS.repeat (ops : MathOps) (p : FSRSParameters) (rand : ℚ) (card : Card)
    (now : ℤ) : RecordLog :=
  { again := scheduleGrade ops p rand card now (cardElapsed card now) Grade.Again
    hard := scheduleGrade ops p rand card now (cardElapsed card now) Grade.Hard
    good := scheduleGrade ops p rand card now (cardElapsed card now) Grade.Good
    easy := scheduleGrade ops p rand card now (cardElapsed card now) Grade.Easy }

/-- Modelled from the spec: §4.4 `rollback(card, log)` — best-effort structural undo.
Restores `state` from `log.state`, `elapsed_days` from `log.last_elapsed_days`,
`scheduled_days` from the log, decrements `reps` for non-Again events and `lapses`
for Again-in-Review events, clears `last_review` when `log.state = New` (restoring
`due` from the log's pre-event slot) and otherwise restores `last_review` from the
log's slot while setting `due` to the review instant (the pre-event due of a
previously-reviewed card is not recorded; §4.4 calls this best-effort). -/
def FSRS.rollback (card : Card) (log : ReviewLog) : Card :=
  if log.state = State.New then
    { due := log.due
      stability := log.stability
      difficulty := log.difficulty
      elapsed_days := log.last_elapsed_days
      scheduled_days := log.scheduled_days
      reps := if log.rating = Rating.Again then card.reps else card.reps - 1
      lapses := if log.rating = Rating.Again ∧ log.state = State.Review then
          card.lapses - 1 else card.lapses
      state := log.state
      last_review := none }
  else
    { due := log.review
      stability := log.stability
      difficulty := log.difficulty
      elapsed_days := log.last_elapsed_days
      scheduled_days := log.scheduled_days
      reps := if log.rating = Rating.Again then card.reps else card.reps - 1
      lapses := if log.rating = Rating.Again ∧ log.state = State.Review then
          card.lapses - 1 else card.lapses
      state := log.state
      last_review := some log.due }

/-- Modelled from the spec: `createEmptyCard(now)` (dist/index.d.ts line 120) —
a fresh New card due now, with zeroed counters and no review history. -/
def createEmptyCard (now : ℤ) : Card :=
  { due := now
    stability := 0
    difficulty := 0
    elapsed_days := 0
    scheduled_days := 0
    reps := 0
    lapses := 0
    state := State.New
    last_review := none }

/-- Modelled from the spec: §7 construction-time validation — a weight vector of the
wrong length or a `request_retention` outside (0,1] fails fast with a configuration
error; no silent defaulting (dist/index.d.ts line 89). -/
def generatorParameters (p : FSRSParameters) : Except String FSRSParameters :=
  if p.w.length ≠ expected_w_length then
    Except.error "invalid w length"
  else if p.request_retention ≤ 0 ∨ 1 < p.request_retention then
    Except.error "invalid request_retention"
  else
    Except.ok p

/-- A trivial math backend (all transcendentals constantly 1), used only to
instantiate witnesses on concrete inputs. -/
def opsOne : MathOps := { exp := fun _ => 1, pow := fun _ _ => 1 }

/-- The default parameter set assembled from the shipped defaults. -/
def pDefault : FSRSParameters :=
  { request_retention := default_request_retention
    maximum_interval := default_maximum_interval
    w := default_w
    enable_fuzz := default_enable_fuzz }

/-- The default parameter set with fuzz disabled. -/
def pNoFuzz : FSRSParameters := { pDefault with enable_fuzz := false }

/-- Parameters with a small `maximum_interval`, exercising the degenerate fuzz band. -/
def pShortMax : FSRSParameters := { pDefault with maximum_interval := 12 }

/-- A misconfigured parameter set with an empty weight vector. -/
def pBadW : FSRSParameters := { pDefault with w := [] }

/-- A concrete previously-reviewed card in state Learning, due at minute 100. -/
def cardLearning : Card :=
  { due := 100
    stability := 1
    difficulty := 5
    elapsed_days := 0
    scheduled_days := 1
    reps := 1
    lapses := 0
    state := State.Learning
    last_review := some 0 }

/-! ## Helper lemmas -/

/-- Rollback always restores the card state recorded in the log. -/
theorem rollback_state (c : Card) (l : ReviewLog) : (FSRS.rollback c l).state = l.state := by
  unfold FSRS.rollback
  split <;> rfl

/-- Rollback always restores the elapsed days recorded in the log. -/
theorem rollback_elapsed (c : Card) (l : ReviewLog) :
    (FSRS.rollback c l).elapsed_days = l.last_elapsed_days := by
  unfold FSRS.rollback
  split <;> rfl

/-- For a log of a New-state event, rollback restores the due instant from the log. -/
theorem rollback_due_new (c : Card) (l : ReviewLog) (h : l.state = State.New) :
    (FSRS.rollback c l).due = l.due := by
  unfold FSRS.rollback
  rw [if_pos h]

/-- With fuzz disabled, `apply_fuzz` only rounds the interval. -/
theorem apply_fuzz_disabled (p : FSRSParameters) (rand ivl : ℚ) (e : ℤ) :
    apply_fuzz p rand ivl e false = round ivl := by
  unfold apply_fuzz
  rw [if_pos (Or.inl rfl)]

/-- With fuzz disabled, `next_interval` is round-floor-cap of the target interval and is
independent of the pseudo-random draw. -/
theorem next_interval_disabled (p : FSRSParameters) (rand s : ℚ) (e : ℤ) :
    next_interval p rand s e false =
      min (max (round (s * intervalModifier p)) 1) p.maximum_interval := by
  unfold next_interval
  rw [apply_fuzz_disabled]

/-- With fuzz disabled in the configuration, a grade's candidate outcome does not depend
on the pseudo-random draw. -/
theorem scheduleGrade_rand_indep (ops : MathOps) (p : FSRSParameters) (r₁ r₂ : ℚ)
    (card : Card) (now e : ℤ) (g : Grade) (h : p.enable_fuzz = false) :
    scheduleGrade ops p r₁ card now e g = scheduleGrade ops p r₂ card now e g := by
  simp only [scheduleGrade, h, next_interval_disabled]

/-- The uniform draw from a nonempty integer band lands inside the band. -/
theorem fuzz_draw_bounds (m M : ℤ) (rand : ℚ) (h0 : 0 ≤ rand) (h1 : rand < 1)
    (hne : m ≤ M) :
    m ≤ m + ⌊rand * ((M - m + 1 : ℤ) : ℚ)⌋ ∧ m + ⌊rand * ((M - m + 1 : ℤ) : ℚ)⌋ ≤ M := by
  have hw : (0:ℤ) < M - m + 1 := by omega
  have hwq : (0:ℚ) < ((M - m + 1 : ℤ) : ℚ) := by exact_mod_cast hw
  have hf0 : 0 ≤ ⌊rand * ((M - m + 1 : ℤ) : ℚ)⌋ :=
    Int.floor_nonneg.mpr (mul_nonneg h0 hwq.le)
  have hfM : ⌊rand * ((M - m + 1 : ℤ) : ℚ)⌋ < M - m + 1 :=
    Int.floor_lt.mpr (mul_lt_of_lt_one_left hwq h1)
  omega

/-! ## Claim theorems -/

/-- C1: the next state assigned by forward scheduling equals the spec's 16-entry
transition table for every current state and grade; scheduling a New card via
`repeat` yields candidate cards in state Learning for Again/Hard/Good and Review for
Easy, and every log records the pre-event state New. -/
theorem c1_state_transitions (ops : MathOps) (p : FSRSParameters) (rand : ℚ)
    (card : Card) (now : ℤ) (h : card.state = State.New) :
    (next_state State.New Grade.Again = State.Learning ∧
      next_state State.New Grade.Hard = State.Learning ∧
      next_state State.New Grade.Good = State.Learning ∧
      next_state State.New Grade.Easy = State.Review ∧
      next_state State.Learning Grade.Again = State.Learning ∧
      next_state State.Learning Grade.Hard = State.Learning ∧
      next_state State.Learning Grade.Good = State.Review ∧
      next_state State.Learning Grade.Easy = State.Review ∧
      next_state State.Relearning Grade.Again = State.Relearning ∧
      next_state State.Relearning Grade.Hard = State.Relearning ∧
      next_state State.Relearning Grade.Good = State.Review ∧
      next_state State.Relearning Grade.Easy = State.Review ∧
      next_state State.Review Grade.Again = State.Relearning ∧
      next_state State.Review Grade.Hard = State.Review ∧
      next_state State.Review Grade.Good = State.Review ∧
      next_state State.Review Grade.Easy = State.Review) ∧
    (∀ g : Grade,
      ((FSRS.repeat ops p rand card now).get g).card.state = next_state card.state g) ∧
    (∀ g : Grade, ((FSRS.repeat ops p rand card now).get g).log.state = State.New) ∧
    ((FSRS.repeat ops p rand card now).again.card.state = State.Learning ∧
      (FSRS.repeat ops p rand card now).hard.card.state = State.Learning ∧
      (FSRS.repeat ops p rand card now).good.card.state = State.Learning ∧
      (FSRS.repeat ops p rand card now).easy.card.state = State.Review) := by
  refine ⟨by decide, fun g => ?_, fun g => ?_, ?_, ?_, ?_, ?_⟩
  · cases g <;> rfl
  · cases g <;> exact h
  · show next_state card.state Grade.Again = State.Learning
    rw [h]
    decide
  · show next_state card.state Grade.Hard = State.Learning
    rw [h]
    decide
  · show next_state card.state Grade.Good = State.Learning
    rw [h]
    decide
  · show next_state card.state Grade.Easy = State.Review
    rw [h]
    decide

/-- Witness for C1 at a concrete New card. -/
theorem c1_witness :
    (createEmptyCard 7).state = State.New ∧
    (FSRS.repeat opsOne pNoFuzz 0 (createEmptyCard 7) 7).again.card.state = State.Learning ∧
    (FSRS.repeat opsOne pNoFuzz 0 (createEmptyCard 7) 7).easy.card.state = State.Review ∧
    (FSRS.repeat opsOne pNoFuzz 0 (createEmptyCard 7) 7).good.log.state = State.New :=
  ⟨rfl,
    (c1_state_transitions opsOne pNoFuzz 0 (createEmptyCard 7) 7 rfl).2.2.2.1,
    (c1_state_transitions opsOne pNoFuzz 0 (createEmptyCard 7) 7 rfl).2.2.2.2.2.2,
    (c1_state_transitions opsOne pNoFuzz 0 (createEmptyCard 7) 7 rfl).2.2.1 Grade.Good⟩

/-- C2 (amended): taking the Good-branch outcome of `repeat` and passing its card and
log to `rollback` always restores `state` and `elapsed_days` to the pre-event values
recorded in the log; `due` is additionally restored for a card in state New (no prior
review). For previously-reviewed cards rollback sets `due` to the review instant,
the documented best-effort of §4.4. -/
theorem c2_rollback_good_roundtrip (ops : MathOps) (p : FSRSParameters) (rand : ℚ)
    (card : Card) (now : ℤ) :
    (FSRS.rollback ((FSRS.repeat ops p rand card now).good).card
        ((FSRS.repeat ops p rand card now).good).log).state = card.state ∧
    (FSRS.rollback ((FSRS.repeat ops p rand card now).good).card
        ((FSRS.repeat ops p rand card now).good).log).elapsed_days = card.elapsed_days ∧
    (card.state = State.New → card.last_review = none →
      (FSRS.rollback ((FSRS.repeat ops p rand card now).good).card
          ((FSRS.repeat ops p rand card now).good).log).due = card.due) := by
  refine ⟨(rollback_state _ _).trans rfl, (rollback_elapsed _ _).trans rfl,
    fun hN hLR => ?_⟩
  have hs : ((FSRS.repeat ops p rand card now).good).log.state = State.New := hN
  refine (rollback_due_new _ _ hs).trans ?_
  show Option.getD card.last_review card.due = card.due
  rw [hLR]
  rfl

/-- Counterexample for C2 as stated: for a previously-reviewed (Learning-state) card
whose due instant differs from the review instant, the Good-branch round trip does not
restore `due`. -/
theorem c2_counterexample :
    (FSRS.rollback ((FSRS.repeat opsOne pNoFuzz 0 cardLearning 10000).good).card
        ((FSRS.repeat opsOne pNoFuzz 0 cardLearning 10000).good).log).due ≠
      cardLearning.due := by
  decide

/-- Witness for C2 at a concrete New card. -/
theorem c2_witness :
    (createEmptyCard 5).state = State.New ∧
    (FSRS.rollback ((FSRS.repeat opsOne pNoFuzz 0 (createEmptyCard 5) 5).good).card
        ((FSRS.repeat opsOne pNoFuzz 0 (createEmptyCard 5) 5).good).log).state =
      (createEmptyCard 5).state ∧
    (FSRS.rollback ((FSRS.repeat opsOne pNoFuzz 0 (createEmptyCard 5) 5).good).card
        ((FSRS.repeat opsOne pNoFuzz 0 (createEmptyCard 5) 5).good).log).elapsed_days =
      (createEmptyCard 5).elapsed_days ∧
    (FSRS.rollback ((FSRS.repeat opsOne pNoFuzz 0 (createEmptyCard 5) 5).good).card
        ((FSRS.repeat opsOne pNoFuzz 0 (createEmptyCard 5) 5).good).log).due =
      (createEmptyCard 5).due :=
  ⟨rfl, (c2_rollback_good_roundtrip opsOne pNoFuzz 0 (createEmptyCard 5) 5).1,
    (c2_rollback_good_roundtrip opsOne pNoFuzz 0 (createEmptyCard 5) 5).2.1,
    (c2_rollback_good_roundtrip opsOne pNoFuzz 0 (createEmptyCard 5) 5).2.2 rfl rfl⟩

/-- C3: for every stability s > 0, `forgetting_curve s s` equals 0.9 exactly — the
defining property of stability under the modelled constants DECAY and FACTOR. -/
theorem c3_forgetting_curve_at_stability (s : ℚ) (hs : 0 < s) :
    forgetting_curve s s = 9 / 10 := by
  have hs' : s ≠ 0 := ne_of_gt hs
  have h1 : FACTOR * s / (9 * s) = 1 / 9 := by
    rw [show FACTOR = (1:ℚ) from rfl, one_mul, mul_comm 9 s, ← div_div, div_self hs']
  unfold forgetting_curve
  rw [h1, show DECAY = (-1 : ℤ) from rfl, zpow_neg_one]
  norm_num

/-- Witness for C3 at s = 2. -/
theorem c3_witness : (0:ℚ) < 2 ∧ forgetting_curve 2 2 = 9 / 10 :=
  ⟨by norm_num, c3_forgetting_curve_at_stability 2 (by norm_num)⟩

/-- C4: for every grade and every difficulty d in [1,10], `next_difficulty d g` lies in
[1,10], and it is the clamped mean-reversion blend of `init_difficulty Good` with
`d - w6 * (g - Good)`. -/
theorem c4_next_difficulty_range (p : FSRSParameters) (d : ℚ) (g : Grade)
    (h1 : 1 ≤ d) (h2 : d ≤ 10) :
    (1 ≤ next_difficulty p d g ∧ next_difficulty p d g ≤ 10) ∧
    next_difficulty p d g =
      constrain_difficulty (mean_reversion p (init_difficulty p Grade.Good)
        (d - p.w.getD 6 0 * (Grade.q g - 3))) := by
  refine ⟨⟨?_, ?_⟩, rfl⟩
  · unfold next_difficulty constrain_difficulty
    exact le_min (le_max_right _ _) (by norm_num)
  · unfold next_difficulty constrain_difficulty
    exact min_le_right _ _

/-- Witness for C4 at d = 5, grade Good. -/
theorem c4_witness :
    ((1:ℚ) ≤ 5 ∧ (5:ℚ) ≤ 10) ∧
    (1 ≤ next_difficulty pDefault 5 Grade.Good ∧ next_difficulty pDefault 5 Grade.Good ≤ 10) :=
  ⟨⟨by norm_num, by norm_num⟩,
    (c4_next_difficulty_range pDefault 5 Grade.Good (by norm_num) (by norm_num)).1⟩

/-- C5: with fuzz disabled, `next_interval` returns `s * 9 * (1/request_retention - 1)`
rounded to whole days, floored at 1 and capped at `maximum_interval`; when the target
interval is below 2.5, enabling fuzz changes nothing (fuzz applies only when enabled
and the interval is at least 2.5). -/
theorem c5_next_interval_formula (p : FSRSParameters) (rand : ℚ) (s : ℚ) (e : ℤ) :
    next_interval p rand s e false =
      min (max (round (s * (9 * (1 / p.request_retention - 1)))) 1) p.maximum_interval ∧
    (s * intervalModifier p < 5/2 → ∀ rand₂ : ℚ,
      next_interval p rand s e true = next_interval p rand₂ s e false) := by
  constructor
  · exact next_interval_disabled p rand s e
  · intro hlt rand₂
    rw [next_interval_disabled]
    unfold next_interval apply_fuzz
    rw [if_pos (Or.inr hlt)]

/-- Witness for C5 at concrete inputs. -/
theorem c5_witness :
    next_interval pNoFuzz 0 10 0 false =
      min (max (round ((10:ℚ) * (9 * (1 / pNoFuzz.request_retention - 1)))) 1)
        pNoFuzz.maximum_interval ∧
    next_interval pNoFuzz (1/3) 1 0 true = next_interval pNoFuzz (2/3) 1 0 false :=
  ⟨(c5_next_interval_formula pNoFuzz 0 10 0).1,
    (c5_next_interval_formula pNoFuzz (1/3) 1 0).2
      (by norm_num [intervalModifier, pNoFuzz, pDefault, default_request_retention]) (2/3)⟩

/-- C6 (amended): the band returned by `get_fuzz_range` always satisfies
`min_ivl ≥ elapsed_days + 1` and `max_ivl ≤ maximum_interval`; and provided the
elapsed days are nonnegative, the draw lies in [0,1), the interval is at least 2.5 and
the re-clamped band is nonempty, every value `apply_fuzz` returns lies within
`[min_ivl, max_ivl]` and within `[1, maximum_interval]`. -/
theorem c6_fuzz_band (ivl : ℚ) (e maxI : ℤ) (p : FSRSParameters) (rand : ℚ)
    (h0 : 0 ≤ rand) (h1 : rand < 1) (he : 0 ≤ e) (hiv : 5/2 ≤ ivl)
    (hne : (get_fuzz_range ivl e p.maximum_interval).min_ivl ≤
      (get_fuzz_range ivl e p.maximum_interval).max_ivl) :
    (e + 1 ≤ (get_fuzz_range ivl e maxI).min_ivl ∧
      (get_fuzz_range ivl e maxI).max_ivl ≤ maxI) ∧
    ((get_fuzz_range ivl e p.maximum_interval).min_ivl ≤ apply_fuzz p rand ivl e true ∧
      apply_fuzz p rand ivl e true ≤ (get_fuzz_range ivl e p.maximum_interval).max_ivl ∧
      1 ≤ apply_fuzz p rand ivl e true ∧
      apply_fuzz p rand ivl e true ≤ p.maximum_interval) := by
  have hcond : ¬(true = false ∨ ivl < 5/2) := by
    intro hc
    rcases hc with hc | hc
    · exact Bool.noConfusion hc
    · exact absurd hc (not_lt.mpr hiv)
  have hval : apply_fuzz p rand ivl e true =
      (get_fuzz_range ivl e p.maximum_interval).min_ivl +
        ⌊rand * (((get_fuzz_range ivl e p.maximum_interval).max_ivl -
          (get_fuzz_range ivl e p.maximum_interval).min_ivl + 1 : ℤ) : ℚ)⌋ := by
    unfold apply_fuzz
    rw [if_neg hcond]
  have hb := fuzz_draw_bounds ((get_fuzz_range ivl e p.maximum_interval).min_ivl)
    ((get_fuzz_range ivl e p.maximum_interval).max_ivl) rand h0 h1 hne
  have h1m : e + 1 ≤ (get_fuzz_range ivl e p.maximum_interval).min_ivl := le_max_right _ _
  have hMm : (get_fuzz_range ivl e p.maximum_interval).max_ivl ≤ p.maximum_interval :=
    min_le_right _ _
  refine ⟨⟨le_max_right _ _, min_le_right _ _⟩, ?_, ?_, ?_, ?_⟩ <;> rw [hval] <;> omega

/-- Counterexample for C6 as stated: when `maximum_interval < elapsed_days + 1` the
re-clamped band is empty, and the fuzzed value escapes both the band and
`[1, maximum_interval]`. -/
theorem c6_counterexample :
    ¬(apply_fuzz pShortMax 0 10 20 true ≤
        (get_fuzz_range 10 20 pShortMax.maximum_interval).max_ivl) ∧
    ¬(apply_fuzz pShortMax 0 10 20 true ≤ pShortMax.maximum_interval) := by
  have h1 : apply_fuzz pShortMax 0 10 20 true = 21 := by
    norm_num [apply_fuzz, get_fuzz_range, pShortMax, pDefault, default_maximum_interval,
      round_eq]
  have h2 : (get_fuzz_range 10 20 pShortMax.maximum_interval).max_ivl = 11 := by
    norm_num [get_fuzz_range, pShortMax, pDefault, default_maximum_interval, round_eq]
  rw [h1, h2]
  norm_num [pShortMax, pDefault]

/-- Witness for C6 at concrete inputs. -/
theorem c6_witness :
    ((0:ℚ) ≤ 1/2 ∧ (1/2:ℚ) < 1 ∧ (5/2:ℚ) ≤ 10) ∧
    (1 ≤ apply_fuzz pDefault (1/2) 10 0 true ∧
      apply_fuzz pDefault (1/2) 10 0 true ≤ pDefault.maximum_interval) :=
  ⟨⟨by norm_num, by norm_num, by norm_num⟩,
    (c6_fuzz_band 10 0 36500 pDefault (1/2) (by norm_num) (by norm_num) (by norm_num)
      (by norm_num)
      (by norm_num [get_fuzz_range, pDefault, default_maximum_interval, round_eq])).2.2.2⟩

/-- C7: with fuzz disabled in the configuration, `repeat` on identical
(card, now, config) inputs yields identical RecordLogs — the pseudo-random draw (the
only thing that could differ between two calls) is ignored, and the input card is a
value never mutated. -/
theorem c7_repeat_deterministic (ops : MathOps) (p : FSRSParameters) (r₁ r₂ : ℚ)
    (card : Card) (now : ℤ) (h : p.enable_fuzz = false) :
    FSRS.repeat ops p r₁ card now = FSRS.repeat ops p r₂ card now := by
  unfold FSRS.repeat
  rw [scheduleGrade_rand_indep ops p r₁ r₂ card now (cardElapsed card now) Grade.Again h,
    scheduleGrade_rand_indep ops p r₁ r₂ card now (cardElapsed card now) Grade.Hard h,
    scheduleGrade_rand_indep ops p r₁ r₂ card now (cardElapsed card now) Grade.Good h,
    scheduleGrade_rand_indep ops p r₁ r₂ card now (cardElapsed card now) Grade.Easy h]

/-- Witness for C7 at a concrete card with two different draws. -/
theorem c7_witness :
    pNoFuzz.enable_fuzz = false ∧
    FSRS.repeat opsOne pNoFuzz 0 (createEmptyCard 0) 0 =
      FSRS.repeat opsOne pNoFuzz (1/2) (createEmptyCard 0) 0 :=
  ⟨rfl, c7_repeat_deterministic opsOne pNoFuzz 0 (1/2) (createEmptyCard 0) 0 rfl⟩

/-- C8: constructing a scheduler configuration with a weight vector of the wrong
length, or with `request_retention` outside (0,1], fails fast with a configuration
error — it never yields a usable instance. -/
theorem c8_construction_validation (p : FSRSParameters)
    (h : p.w.length ≠ expected_w_length ∨
      p.request_retention ≤ 0 ∨ 1 < p.request_retention) :
    ∀ q : FSRSParameters, generatorParameters p ≠ Except.ok q := by
  intro q
  unfold generatorParameters
  by_cases hl : p.w.length = expected_w_length
  · rw [if_neg (not_not_intro hl)]
    have hrr : p.request_retention ≤ 0 ∨ 1 < p.request_retention := by
      rcases h with h | h
      · exact absurd hl h
      · exact h
    rw [if_pos hrr]
    exact fun hc => Except.noConfusion hc
  · rw [if_pos hl]
    exact fun hc => Except.noConfusion hc

/-- Witness for C8 at a concrete bad configuration (empty weight vector). -/
theorem c8_witness :
    pBadW.w.length ≠ expected_w_length ∧ generatorParameters pBadW ≠ Except.ok pBadW :=
  ⟨by decide, c8_construction_validation pBadW (Or.inl (by decide)) pBadW⟩

/-- C9: `forgetting_curve 0 s = 1` for every s > 0; for fixed s > 0 the curve is
strictly decreasing in elapsed time, and for fixed elapsed time it is monotonically
increasing in stability. -/
theorem c9_forgetting_curve_monotone :
    (∀ s : ℚ, 0 < s → forgetting_curve 0 s = 1) ∧
    (∀ s t₁ t₂ : ℚ, 0 < s → 0 ≤ t₁ → t₁ < t₂ →
      forgetting_curve t₂ s < forgetting_curve t₁ s) ∧
    (∀ t s₁ s₂ : ℚ, 0 ≤ t → 0 < s₁ → s₁ ≤ s₂ →
      forgetting_curve t s₁ ≤ forgetting_curve t s₂) := by
  refine ⟨?_, ?_, ?_⟩
  · intro s hs
    simp [forgetting_curve, FACTOR]
  · intro s t₁ t₂ hs h1 h12
    unfold forgetting_curve
    rw [show DECAY = (-1 : ℤ) from rfl, zpow_neg_one, zpow_neg_one,
      show FACTOR = (1:ℚ) from rfl, one_mul, one_mul]
    have h9 : (0:ℚ) < 9 * s := by linarith
    have hd1 : 0 ≤ t₁ / (9 * s) := div_nonneg h1 h9.le
    have ha1 : (0:ℚ) < 1 + t₁ / (9 * s) := by linarith
    have hlt : 1 + t₁ / (9 * s) < 1 + t₂ / (9 * s) := by
      have := div_lt_div_of_pos_right h12 h9
      linarith
    rw [inv_eq_one_div, inv_eq_one_div]
    exact div_lt_div_of_pos_left one_pos ha1 hlt
  · intro t s₁ s₂ ht hs1 hs12
    unfold forgetting_curve
    rw [show DECAY = (-1 : ℤ) from rfl, zpow_neg_one, zpow_neg_one,
      show FACTOR = (1:ℚ) from rfl, one_mul]
    have h91 : (0:ℚ) < 9 * s₁ := by linarith
    have h92 : (0:ℚ) < 9 * s₂ := by linarith
    have hdiv : t / (9 * s₂) ≤ t / (9 * s₁) :=
      div_le_div_of_nonneg_left ht h91 (by linarith)
    have ha2 : (0:ℚ) < 1 + t / (9 * s₂) := by
      have : 0 ≤ t / (9 * s₂) := div_nonneg ht h92.le
      linarith
    have hle : 1 + t / (9 * s₂) ≤ 1 + t / (9 * s₁) := by linarith
    rw [inv_eq_one_div, inv_eq_one_div]
    exact div_le_div_of_nonneg_left zero_le_one ha2 hle

/-- Witness for C9 at concrete stabilities and times. -/
theorem c9_witness :
    forgetting_curve 0 2 = 1 ∧ forgetting_curve 3 2 < forgetting_curve 1 2 ∧
    forgetting_curve 1 2 ≤ forgetting_curve 1 5 :=
  ⟨c9_forgetting_curve_monotone.1 2 (by norm_num),
    c9_forgetting_curve_monotone.2.1 2 1 3 (by norm_num) (by norm_num) (by norm_num),
    c9_forgetting_curve_monotone.2.2 1 2 5 (by norm_num) (by norm_num) (by norm_num)⟩

/-- C10: `createEmptyCard now` establishes the New-card invariant: state New, zero
reps, lapses, elapsed and scheduled days, due at now, and no review history. -/
theorem c10_create_empty_card (now : ℤ) :
    (createEmptyCard now).state = State.New ∧ (createEmptyCard now).reps = 0 ∧
    (createEmptyCard now).lapses = 0 ∧ (createEmptyCard now).elapsed_days = 0 ∧
    (createEmptyCard now).scheduled_days = 0 ∧ (createEmptyCard now).due = now ∧
    (createEmptyCard now).last_review = none :=
  ⟨rfl, rfl, rfl, rfl, rfl, rfl, rfl⟩

end TsFsrs
